import Mathlib

/-!
Verification of the io-ctrl firmware core (smartenough-org/io-ctrl) against its
natural-language specification.  Each Rust function relevant to the examined
properties is shallowly embedded as an executable Lean definition; machine
integers are modelled as Nat with explicit saturation where the source
saturates, f32 position arithmetic is modelled as exact rationals, and
fallible or panicking code returns Option or an explicit outcome type.
-/

/-! ## Event converter — src/io/event_converter.rs -/

/-- Semantic triggers emitted by the event converter (src/io/events.rs,
encoding ShortClick=0 .. LongDeactivated=5). -/
inductive Trigger where
  | shortClick
  | longClick
  | activated
  | deactivated
  | longActivated
  | longDeactivated
deriving DecidableEq

/-- Raw switch states produced by the input scanner: Activated, Active(ms),
Deactivated(ms). -/
inductive SwitchState where
  | activated
  | active (ms : Nat)
  | deactivated (ms : Nat)
deriving DecidableEq

/-- EventConverter::MAX_SHORT_MS from src/io/event_converter.rs line 14:
the source constant is 300 ms. -/
def MAX_SHORT_MS : Nat := 300

/-- The list of triggers EventConverter::run emits, in order, for one incoming
switch event (src/io/event_converter.rs lines 47-105). -/
def convertEvent : SwitchState → List Trigger
  | .activated => [.activated]
  | .active ms => if MAX_SHORT_MS ≤ ms then [.longActivated] else []
  | .deactivated ms =>
      (if ms ≤ MAX_SHORT_MS then [.shortClick] else [.longClick, .longDeactivated])
        ++ [.deactivated]

/-- The converter policy as the specification words it, with the threshold
MAX_SHORT as a parameter: Activated maps to Activated; Active(ms) with
ms at least the threshold maps to LongActivated; Deactivated(ms) at or below
the threshold maps to ShortClick then Deactivated, above it to LongClick,
LongDeactivated, Deactivated.  Used to compare the source behaviour against
the specification threshold. -/
def policyWith (maxShort : Nat) : SwitchState → List Trigger
  | .activated => [.activated]
  | .active ms => if maxShort ≤ ms then [.longActivated] else []
  | .deactivated ms =>
      (if ms ≤ maxShort then [.shortClick] else [.longClick, .longDeactivated])
        ++ [.deactivated]

/-! ## Shutter command codec — src/buttonsmash/shutters.rs, Cmd -/

/-- Shutter commands (src/buttonsmash/shutters.rs lines 33-60).  The source
variants Open and Close are named fullOpen and fullClose here because open is
a Lean keyword; Cmd::SetIO is named setIo. -/
inductive ShCmd where
  | go (height tilt : Nat)
  | fullOpen
  | fullClose
  | tilt (v : Nat)
  | tiltClose
  | tiltOpen
  | tiltHalf
  | tiltReverse
  | setIo (down up : Nat)
deriving DecidableEq

/-- Cmd::to_raw (src/buttonsmash/shutters.rs lines 92-129): fills a 5-byte
buffer with zeroes and writes the command code (Go=1, Open=2, Close=3, Tilt=4,
TiltClose=5, TiltOpen=6, TiltHalf=7, TiltReverse=8, SetIO=0x10) and the
arguments. -/
def ShCmd.to_raw : ShCmd → List Nat
  | .go h t => [1, h, t, 0, 0]
  | .fullOpen => [2, 0, 0, 0, 0]
  | .fullClose => [3, 0, 0, 0, 0]
  | .tilt v => [4, v, 0, 0, 0]
  | .tiltClose => [5, 0, 0, 0, 0]
  | .tiltOpen => [6, 0, 0, 0, 0]
  | .tiltHalf => [7, 0, 0, 0, 0]
  | .tiltReverse => [8, 0, 0, 0, 0]
  | .setIo d u => [16, d, u, 0, 0]

/-- Cmd::from_raw (src/buttonsmash/shutters.rs lines 75-90).  The arm for
code 5 (codes::TILT_CLOSE) returns Cmd::Close in the source, exactly as
written there. -/
def ShCmd.from_raw (raw : List Nat) : Option ShCmd :=
  let b0 := raw.getD 0 0
  let b1 := raw.getD 1 0
  let b2 := raw.getD 2 0
  if b0 = 1 then some (.go b1 b2)
  else if b0 = 2 then some .fullOpen
  else if b0 = 3 then some .fullClose
  else if b0 = 4 then some (.tilt b1)
  else if b0 = 5 then some .fullClose
  else if b0 = 6 then some .tiltOpen
  else if b0 = 7 then some .tiltHalf
  else if b0 = 8 then some .tiltReverse
  else if b0 = 16 then some (.setIo b1 b2)
  else none

/-! ## Input scanner — src/io/expander_switches.rs, ExpanderSwitches::run -/

/-- One 30 ms poll step for a single expander line (src/io/expander_switches.rs
lines 109-150).  The counter c is the per-line entry of the state array.  The
source line 114 reads: let _ = state[idx].saturating_add(1); — the saturated
sum is bound to a wildcard and discarded, so the stored counter is not
changed on an active poll.  That line is reproduced here as a discarded let
binding. -/
def scanStep (active : Bool) (c : Nat) : Nat × List SwitchState :=
  if active then
    let _ := min (c + 1) 65535
    if c = 2 then (c, [.activated])
    else if 2 < c then (c, [.active (30 * c)])
    else (c, [])
  else
    (0, if 2 ≤ c then [.deactivated (30 * c)] else [])

/-- Iterate the per-line scan step over a sequence of polled levels
(true = reads active), collecting emitted events in order. -/
def scanRun (c : Nat) : List Bool → Nat × List SwitchState
  | [] => (c, [])
  | b :: bs =>
      let r := scanStep b c
      let rest := scanRun r.1 bs
      (rest.1, r.2 ++ rest.2)

/-! ## Bus transmit retry — src/components/interconnect.rs,
Interconnect::transmit_standard, WhenFull::Wait -/

/-- Result of a transmit call: whether it returned true, the total time spent
sleeping in backoff (microseconds), and how many times the can_drop counter
was incremented. -/
structure TxResult where
  success : Bool
  sleepUs : Nat
  canDropInc : Nat
deriving DecidableEq

/-- The Wait retry loop (src/components/interconnect.rs lines 146-164):
wait_time starts at 1; each of up to 8 iterations sleeps
600 + wait_time * 500 microseconds, retries try_write, and increments
wait_time.  tries k tells whether the k-th try_write call succeeds (k = 0 is
the initial attempt before the loop; the loop iteration with wait_time = k
performs attempt k). -/
def waitRetryLoop (tries : Nat → Bool) : Nat → Nat → Nat → TxResult
  | 0, _, acc => { success := false, sleepUs := acc, canDropInc := 1 }
  | n + 1, waitTime, acc =>
      let acc2 := acc + (600 + waitTime * 500)
      if tries waitTime then { success := true, sleepUs := acc2, canDropInc := 0 }
      else waitRetryLoop tries n (waitTime + 1) acc2

/-- transmit_standard with the Wait when-full policy: one immediate try_write,
then the retry loop with 8 iterations and wait_time starting at 1.  On
exhaustion can_drop is incremented and false returned. -/
def transmitWait (tries : Nat → Bool) : TxResult :=
  if tries 0 then { success := true, sleepUs := 0, canDropInc := 0 }
  else waitRetryLoop tries 8 1 0

/-- Sum of the backoff sleeps for n loop iterations starting at a given
wait_time. -/
def sumBackoff : Nat → Nat → Nat
  | 0, _ => 0
  | n + 1, w => (600 + w * 500) + sumBackoff n (w + 1)

/-! ## Output driver — src/io/indexed_outputs.rs, IndexedOutputs -/

/-- Outcome of IndexedOutputs::set / ::toggle: Ok, Err(()) (expander write
failed or the index is unknown), or a Rust panic (native pin expect, or the
defensive io_within check). -/
inductive SetOutcome where
  | ok
  | err
  | panicked
deriving DecidableEq

/-- Static configuration of IndexedOutputs: the index table, the active-low
flags, the number of 16-bit expanders and of native pins, and oracles telling
whether a given hardware write succeeds (expanderOk: expander number,
bit within, physical level; nativeOk: native position, physical level). -/
structure OutCfg where
  indices : List Nat
  activeLow : List Bool
  numExpanders : Nat
  numNative : Nat
  expanderOk : Nat → Nat → Bool → Bool
  nativeOk : Nat → Bool → Bool

/-- IndexedOutputs::find_id (src/io/indexed_outputs.rs lines 47-54): position
of the first matching entry of the index table. -/
def findId : List Nat → Nat → Option Nat
  | [], _ => none
  | x :: xs, i => if x = i then some 0 else (findId xs i).map (· + 1)

/-- IndexedOutputs::get (src/io/indexed_outputs.rs lines 74-76): the cached
state at the position found for the index. -/
def getOut (cfg : OutCfg) (st : List Bool) (ioIdx : Nat) : Option Bool :=
  (findId cfg.indices ioIdx).map fun p => st.getD p false

/-- IndexedOutputs::set (src/io/indexed_outputs.rs lines 88-129).  The cached
state list is returned unchanged unless the hardware write succeeded.  A
native pin failure is an expect panic in the source; indexing native pins
out of range also panics. -/
def setOut (cfg : OutCfg) (st : List Bool) (ioIdx : Nat) (high : Bool) :
    SetOutcome × List Bool :=
  match findId cfg.indices ioIdx with
  | none => (.err, st)
  | some position =>
      let expanderNo := position / 16
      let setAsHigh := if cfg.activeLow.getD position false then !high else high
      if cfg.numExpanders ≤ expanderNo then
        let nativePos := position - expanderNo * 16
        if cfg.numNative ≤ nativePos then (.panicked, st)
        else if cfg.nativeOk nativePos setAsHigh then (.ok, st.set position high)
        else (.panicked, st)
      else
        let ioWithin := position - expanderNo * 16
        if 16 ≤ ioWithin then (.panicked, st)
        else if cfg.expanderOk expanderNo ioWithin setAsHigh then
          (.ok, st.set position high)
        else (.err, st)

/-- IndexedOutputs::toggle (src/io/indexed_outputs.rs lines 79-85): read the
cached state, set the negation, and return the new state on success. -/
def toggleOut (cfg : OutCfg) (st : List Bool) (ioIdx : Nat) :
    SetOutcome × List Bool × Option Bool :=
  match findId cfg.indices ioIdx with
  | none => (.err, st, none)
  | some position =>
      let current := st.getD position false
      let r := setOut cfg st ioIdx (!current)
      (r.1, r.2, if r.1 = .ok then some (!current) else none)

/-! ## Bus message dispatch — src/app/ctrl_app.rs, task_read_interconnect -/

/-- Output change request argument of SetOutput messages. -/
inductive OutputChangeRequest where
  | on
  | off
  | toggle
deriving DecidableEq

/-- Parsed bus messages as matched by task_read_interconnect
(src/app/ctrl_app.rs lines 246-367).  Response-class payloads are carried
but ignored by the dispatcher. -/
inductive BusMessage where
  | setOutput (output : Nat) (state : OutputChangeRequest)
  | triggerInput (input : Nat) (trigger : Trigger)
  | callProcedure (procId : Nat)
  | shutterCmd (shutterIdx : Nat) (cmd : ShCmd)
  | requestStatus
  | ping (body : Nat)
  | timeAnnouncement (year month day hour minute second dayOfWeek : Nat)
  | errorMsg (code : Nat)
  | infoMsg (code arg : Nat)
  | outputChanged (output : Nat) (state : OutputChangeRequest)
  | inputChanged (input : Nat) (trigger : Trigger)
  | pong (body : Nat)
  | statusMsg (uptime inputs outputs : Nat)
  | statusIoMsg (ioId state : Nat)
deriving DecidableEq

/-- Events pushed into the core 5-slot event channel
(src/buttonsmash/consts.rs with the RemoteStatusRequest variant used by
src/app/ctrl_app.rs and src/buttonsmash/microvm.rs). -/
inductive VmEvent where
  | buttonEvent (input : Nat) (trigger : Trigger)
  | remoteProcedureCall (proc : Nat)
  | remoteToggle (out : Nat)
  | remoteActivate (out : Nat)
  | remoteDeactivate (out : Nat)
  | remoteStatusRequest
deriving DecidableEq

/-- Externally visible effects of dispatching one received bus message. -/
inductive BusEffect where
  | pushEvent (e : VmEvent)
  | shutterSend (shutterIdx : Nat) (cmd : ShCmd)
  | setRtc (year month day hour minute second dayOfWeek : Nat)
  | txPong (body : Nat)
deriving DecidableEq

/-- The broadcast address BROADCAST_ADDRESS = 0x3F (src/config.rs line 23). -/
def BROADCAST_ADDRESS : Nat := 63

/-- Dispatch of one parsed received message by task_read_interconnect
(src/app/ctrl_app.rs lines 224-367), given the node address and the frame
destination address.  The source computes to_us from the frame address and
checks it in the arms for CallProcedure, TriggerInput, SetOutput,
TimeAnnouncement (inverted), RequestStatus and Ping; the ShutterCmd arm
(lines 328-331) forwards to the shutter channel without checking to_us, but
that arm is unreachable for received frames because Message::from_raw never
produces a ShutterCmd (see messageFromRaw below).  CallProcedure and
TriggerInput only log (TODO in the source), so they have no effect.  The RTC
effect abstracts board.set_time after the DateTime decoding whose details
(range validation beyond the day-of-week match) are external to this
model. -/
def handleBusMessage (localAddr dstAddr : Nat) (msg : BusMessage) : List BusEffect :=
  let toUs := dstAddr = localAddr ∨ dstAddr = BROADCAST_ADDRESS
  match msg with
  | .callProcedure _ => []
  | .triggerInput _ _ => []
  | .setOutput output state =>
      if toUs then
        [.pushEvent (match state with
          | .on => .remoteActivate output
          | .off => .remoteDeactivate output
          | .toggle => .remoteToggle output)]
      else []
  | .timeAnnouncement y mo d h mi s dow =>
      if toUs then []
      else if dow < 7 then [.setRtc y mo d h mi s dow] else []
  | .shutterCmd shutterIdx cmd => [.shutterSend shutterIdx cmd]
  | .requestStatus => if toUs then [.pushEvent .remoteStatusRequest] else []
  | .ping body => if toUs then [.txPong body] else []
  | .errorMsg _ => []
  | .infoMsg _ _ => []
  | .outputChanged _ _ => []
  | .inputChanged _ _ => []
  | .pong _ => []
  | .statusMsg _ _ _ => []
  | .statusIoMsg _ _ => []

/-- args::Trigger::from_u8 (src/components/message.rs lines 116-127). -/
def triggerFromU8 (raw : Nat) : Option Trigger :=
  if raw = 0 then some .shortClick
  else if raw = 1 then some .longClick
  else if raw = 2 then some .activated
  else if raw = 3 then some .deactivated
  else if raw = 4 then some .longActivated
  else if raw = 5 then some .longDeactivated
  else none

/-- args::OutputState::from_u8 (src/components/message.rs lines 98-108):
Off = 0, On = 1, Toggle = 2, everything else rejected.  The ctrl_app
dispatch consumes the same three values as an output change request. -/
def outputStateFromU8 (raw : Nat) : Option OutputChangeRequest :=
  if raw = 0 then some .off
  else if raw = 1 then some .on
  else if raw = 2 then some .toggle
  else none

/-- u16::from_le_bytes of two payload bytes. -/
def leU16 (b0 b1 : Nat) : Nat := b0 + 256 * b1

/-- Message::from_raw (src/components/message.rs lines 289-365): semantic
parsing of a received frame from its 5-bit message type, its length field
and its payload bytes.  The source match has arms for SET_OUTPUT (0x08),
TRIGGER_INPUT (0x09), CALL_PROC (0x0A), TIME_ANNOUNCEMENT (0x11),
REQUEST_STATUS (0x0D), PING (0x1E) and PONG (0x1D); INFO, ERROR, STATUS,
OUTPUT_CHANGED and INPUT_TRIGGERED are explicitly dropped with a log, and
every other type falls to the catch-all returning None — including
CALL_SHUTTER (0x0B), for which from_raw has no arm even though to_raw can
emit it.  The explicit drop arms and the catch-all coincide in the trailing
else branch here. -/
def messageFromRaw (msgType length : Nat) (data : List Nat) : Option BusMessage :=
  if msgType = 8 then
    if length ≠ 2 then none
    else (outputStateFromU8 (data.getD 1 0)).map fun st =>
      .setOutput (data.getD 0 0) st
  else if msgType = 9 then
    if length ≠ 2 then none
    else (triggerFromU8 (data.getD 1 0)).map fun trg =>
      .triggerInput (data.getD 0 0) trg
  else if msgType = 10 then
    if length ≠ 1 then none
    else some (.callProcedure (data.getD 0 0))
  else if msgType = 17 then
    if length ≠ 8 then none
    else some (.timeAnnouncement (leU16 (data.getD 0 0) (data.getD 1 0))
      (data.getD 2 0) (data.getD 3 0) (data.getD 4 0) (data.getD 5 0)
      (data.getD 6 0) (data.getD 7 0))
  else if msgType = 13 then some .requestStatus
  else if msgType = 30 then some (.ping (leU16 (data.getD 0 0) (data.getD 1 0)))
  else if msgType = 29 then some (.pong (leU16 (data.getD 0 0) (data.getD 1 0)))
  else none

/-- The full received-frame path of task_read_interconnect
(src/app/ctrl_app.rs lines 202-368): every received frame is first parsed
with Message::from_raw, and a frame that fails to parse is dropped
(continue) before the dispatch match, so only parsed messages reach
handleBusMessage. -/
def handleFrame (localAddr dstAddr msgType length : Nat) (data : List Nat) :
    List BusEffect :=
  match messageFromRaw msgType length data with
  | none => []
  | some m => handleBusMessage localAddr dstAddr m

/-! ## Shutter state machine — src/buttonsmash/shutters.rs, Shutter

Instants and Durations are modelled in milliseconds as Nat.  The f32 position
arithmetic is modelled as exact rationals; the cast of a nonnegative f32 to
u64 when building a Duration is modelled as the floor.  Rational division by
zero yields 0 in Lean where f32 would give infinity; every configuration the
source constructs (Config::new) has nonzero rise, drop and tilt times, and
none of the proved properties depends on the quotient values.  Board output
writes (go_up, go_down, go_idle) are external side effects on the output
driver and are not part of the shutter record. -/

/-- Shutter configuration (src/buttonsmash/shutters.rs lines 171-188),
durations in milliseconds. -/
structure ShutterCfg where
  up : Nat
  down : Nat
  riseTime : Nat
  dropTime : Nat
  tiltTime : Nat
  overTime : Nat
deriving DecidableEq

/-- Config::new (src/buttonsmash/shutters.rs lines 240-249). -/
def ShutterCfg.new (up down : Nat) : ShutterCfg :=
  { up := up, down := down, riseTime := 57260, dropTime := 57260,
    tiltTime := 1500, overTime := 2000 }

/-- Shutter actions (src/buttonsmash/shutters.rs lines 192-207). -/
inductive ShutterAction where
  | idle
  | sleep
  | up (since : Nat)
  | down (since : Nat)
  | cooldown (since : Nat)
deriving DecidableEq

/-- The full per-shutter record (src/buttonsmash/shutters.rs lines 210-224):
cfg, position, target and action, plus the in_sync flag. -/
structure ShutterState where
  cfg : ShutterCfg
  posHeight : ℚ
  posTilt : ℚ
  tgtHeight : ℚ
  tgtTilt : ℚ
  action : ShutterAction
  inSync : Bool
deriving DecidableEq

/-- Cast of a nonnegative rational to a millisecond count, as the source
casts an f32 to u64 (truncation). -/
def qToMs (q : ℚ) : Nat := q.floor.toNat

/-- f32::clamp(0.0, 100.0). -/
def clampPct (q : ℚ) : ℚ := max 0 (min 100 q)

/-- Config::travel_as_time (src/buttonsmash/shutters.rs lines 252-264). -/
def travelAsTime (cfg : ShutterCfg) (src dst : ℚ) : Nat :=
  let cost : ℚ := if dst < src then (cfg.dropTime : ℚ) else (cfg.riseTime : ℚ)
  qToMs (cost * |src - dst| / 100)

/-- Config::tilt_as_time (src/buttonsmash/shutters.rs lines 267-270). -/
def tiltAsTime (cfg : ShutterCfg) (src dst : ℚ) : Nat :=
  qToMs ((cfg.tiltTime : ℚ) * |src - dst| / 100)

/-- Config::time_as_tilt (src/buttonsmash/shutters.rs lines 273-276). -/
def timeAsTilt (cfg : ShutterCfg) (elapsed : Nat) : ℚ :=
  clampPct (100 * (elapsed : ℚ) / (cfg.tiltTime : ℚ))

/-- Config::time_as_travel (src/buttonsmash/shutters.rs lines 278-290); the
direction is +1 going down (drop time) and -1 going up (rise time); the
source panics on any other argument and is only called with these two. -/
def timeAsTravel (cfg : ShutterCfg) (dir : ℤ) (elapsed : Nat) : ℚ :=
  let base : ℚ := if dir = 1 then (cfg.dropTime : ℚ) else (cfg.riseTime : ℚ)
  clampPct (100 * (elapsed : ℚ) / base)

/-- Shutter::consume_tilt (src/buttonsmash/shutters.rs lines 327-369):
returns the new tilt and the residual elapsed milliseconds available for the
height change.  The dev-only range assert of the source is followed by a
clamp to the same interval, which is what this model applies. -/
def consumeTilt (s : ShutterState) (now : Nat) : ℚ × Nat :=
  match s.action with
  | .up since =>
      let maxTime := tiltAsTime s.cfg s.posTilt 0
      let elapsed := now - since
      if maxTime ≤ elapsed then (0, elapsed - maxTime)
      else (clampPct (s.posTilt + (-1) * timeAsTilt s.cfg elapsed), 0)
  | .down since =>
      let maxTime := tiltAsTime s.cfg s.posTilt 100
      let elapsed := now - since
      if maxTime ≤ elapsed then (100, elapsed - maxTime)
      else (clampPct (s.posTilt + 1 * timeAsTilt s.cfg elapsed), 0)
  | _ => (s.posTilt, 0)

/-- Shutter::consume_height (src/buttonsmash/shutters.rs lines 372-394). -/
def consumeHeight (s : ShutterState) (elapsed : Nat) : ℚ :=
  match s.action with
  | .up _ => clampPct (s.posHeight + (-1) * timeAsTravel s.cfg (-1) elapsed)
  | .down _ => clampPct (s.posHeight + 1 * timeAsTravel s.cfg 1 elapsed)
  | _ => s.posHeight

/-- HYSTERESIS = 5.0 (src/buttonsmash/shutters.rs line 20). -/
def HYSTERESIS : ℚ := 5
/-- HYSTERESIS_TILT = 15.0 (line 22). -/
def HYSTERESIS_TILT : ℚ := 15
/-- COOLDOWN = 500 ms (line 24). -/
def COOLDOWN : Nat := 500
/-- NOOP_UPDATE_PERIOD = 10000 ms (line 28). -/
def NOOP_UPDATE_PERIOD : Nat := 10000

/-- Shutter::update (src/buttonsmash/shutters.rs lines 427-543): consume the
elapsed time into tilt then height, then advance the action; returns the new
record and the requested revisit delay in milliseconds. -/
def updateS (s : ShutterState) (now : Nat) : ShutterState × Nat :=
  let ct := consumeTilt s now
  let height := consumeHeight s ct.2
  let s1 := { s with posTilt := ct.1, posHeight := height }
  match s1.action with
  | .idle | .sleep =>
      let heightDiff := |s1.tgtHeight - s1.posHeight|
      let tiltDiff := |s1.tgtTilt - s1.posTilt|
      if HYSTERESIS < heightDiff then
        if s1.tgtHeight < s1.posHeight then ({ s1 with action := .up now }, 0)
        else ({ s1 with action := .down now }, 0)
      else if HYSTERESIS_TILT < tiltDiff then
        if s1.tgtTilt < s1.posTilt then ({ s1 with action := .up now }, 0)
        else ({ s1 with action := .down now }, 0)
      else ({ s1 with action := .sleep }, NOOP_UPDATE_PERIOD)
  | .cooldown since =>
      let elapsed := now - since
      if COOLDOWN ≤ elapsed then ({ s1 with action := .idle }, 0)
      else (s1, COOLDOWN - elapsed)
  | .up _ =>
      if s1.posHeight ≤ s1.tgtHeight then
        if s1.posTilt ≤ s1.tgtTilt then
          ({ s1 with action := .cooldown now }, COOLDOWN)
        else ({ s1 with action := .up now }, tiltAsTime s1.cfg s1.posTilt s1.tgtTilt)
      else ({ s1 with action := .up now },
            travelAsTime s1.cfg s1.posHeight s1.tgtHeight)
  | .down _ =>
      if s1.tgtHeight ≤ s1.posHeight then
        if s1.tgtTilt ≤ s1.posTilt then
          ({ s1 with action := .cooldown now }, COOLDOWN)
        else ({ s1 with action := .down now }, tiltAsTime s1.cfg s1.posTilt s1.tgtTilt)
      else ({ s1 with action := .down now },
            travelAsTime s1.cfg s1.posHeight s1.tgtHeight)

/-- Shutter::finish (src/buttonsmash/shutters.rs lines 547-556): an Up or
Down movement is stopped and enters Cooldown(now); all other actions are
left alone. -/
def finishS (s : ShutterState) (now : Nat) : ShutterState :=
  match s.action with
  | .up _ => { s with action := .cooldown now }
  | .down _ => { s with action := .cooldown now }
  | _ => s

/-- Shutter::set_target (src/buttonsmash/shutters.rs lines 559-576): panics
(none) when called while moving; wakes a sleeping shutter to Idle; then
installs the target and runs update. -/
def setTargetS (s : ShutterState) (now : Nat) (th tt : ℚ) :
    Option (ShutterState × Nat) :=
  match s.action with
  | .sleep =>
      some (updateS { s with action := .idle, tgtHeight := th, tgtTilt := tt } now)
  | .idle => some (updateS { s with tgtHeight := th, tgtTilt := tt } now)
  | .cooldown _ => some (updateS { s with tgtHeight := th, tgtTilt := tt } now)
  | _ => none

/-- Shutter::command (src/buttonsmash/shutters.rs lines 579-646).  When the
action is not Sleep the current movement is first updated and finished.  The
SetIO arm asserts that the action is Sleep (panic, modelled as none) and
otherwise installs the two output indices and returns.  Every other command
computes a target and calls set_target. -/
def commandS (cmd : ShCmd) (s : ShutterState) (now : Nat) : Option ShutterState :=
  let s1 := if s.action ≠ .sleep then finishS (updateS s now).1 now else s
  match cmd with
  | .go h t => (setTargetS s1 now (h : ℚ) (t : ℚ)).map (·.1)
  | .fullOpen =>
      let s2 := if !s1.inSync then
          { s1 with posHeight := 100, posTilt := 100, inSync := true }
        else s1
      (setTargetS s2 now 0 0).map (·.1)
  | .fullClose =>
      let s2 := if !s1.inSync then
          { s1 with posHeight := 0, posTilt := 0, inSync := true }
        else s1
      (setTargetS s2 now 100 100).map (·.1)
  | .tiltClose => (setTargetS s1 now s1.posHeight 100).map (·.1)
  | .tiltOpen => (setTargetS s1 now s1.posHeight 0).map (·.1)
  | .tiltHalf => (setTargetS s1 now s1.posHeight 50).map (·.1)
  | .tiltReverse =>
      (setTargetS s1 now s1.posHeight (if 50 ≤ s1.posTilt then 0 else 100)).map (·.1)
  | .tilt v => (setTargetS s1 now s1.posHeight (v : ℚ)).map (·.1)
  | .setIo d u =>
      if s1.action = .sleep then
        some { s1 with cfg := { s1.cfg with down := d, up := u } }
      else none

/-- An action is an upward movement. -/
def ShutterAction.isUp : ShutterAction → Bool
  | .up _ => true
  | _ => false

/-- An action is a downward movement. -/
def ShutterAction.isDown : ShutterAction → Bool
  | .down _ => true
  | _ => false

/-- An action is a movement in either direction. -/
def ShutterAction.isMoving (a : ShutterAction) : Bool := a.isUp || a.isDown

/-! ## VM / binding engine — src/buttonsmash/microvm.rs, Executor

The modules bindings.rs and layers.rs are declared by
src/buttonsmash/mod.rs but their sources are not in the tree; the Layers and
BindingList operations below are modelled from the specification (sections
4.6 and 3) and are marked so.  Board calls made by alter_output are modelled
through an oracle giving the Result of the driver call. -/

/-- Opcodes (src/buttonsmash/opcodes.rs as used by microvm.rs). -/
inductive Opcode where
  | noop
  | stop
  | start (p : Nat)
  | call (p : Nat)
  | callRegister (r : Nat)
  | setRegister (r v : Nat)
  | toggle (o : Nat)
  | activate (o : Nat)
  | deactivate (o : Nat)
  | layerPush (l : Nat)
  | layerPop
  | layerSet (l : Nat)
  | layerDefault
  | bindClearAll
  | bindShortCall (i p : Nat)
  | bindLongCall (i p : Nat)
  | bindActivateCall (i p : Nat)
  | bindDeactivateCall (i p : Nat)
  | bindLongActivate (i p : Nat)
  | bindLongDeactivate (i p : Nat)
  | bindShortToggle (i o : Nat)
  | bindLongToggle (i o : Nat)
  | bindLayerHold (i l : Nat)
  | bindShutter (sh d u : Nat)
  | sendStatus
deriving DecidableEq

/-- VM commands bound to inputs (src/buttonsmash/consts.rs Command). -/
inductive VmCommand where
  | toggleOutput (o : Nat)
  | activateOutput (o : Nat)
  | deactivateOutput (o : Nat)
  | activateLayer (l : Nat)
  | deactivateLayer (l : Nat)
  | shutter (idx : Nat) (cmd : ShCmd)
  | cmdNoop
deriving DecidableEq

/-- Binding actions (bindings module interface used by microvm.rs). -/
inductive VmAction where
  | actNoop
  | single (c : VmCommand)
  | proc (p : Nat)
deriving DecidableEq

/-- One binding entry: input index, trigger, layer, action. -/
structure Binding where
  idx : Nat
  trigger : Trigger
  layer : Nat
  action : VmAction
deriving DecidableEq

/-- Modelled from the spec: the layers module source is absent from the
tree.  The layer stack is an ordered list of (anchor input, layer) pairs,
newest first, of depth at most MAX_LAYER_STACK = 5; the current layer is the
top entry's layer, or the default layer 0 when the stack is empty. -/
structure Layers where
  stack : List (Nat × Nat)
deriving DecidableEq

/-- Modelled from the spec: current layer is the top of the stack, default 0
when empty. -/
def Layers.current (ls : Layers) : Nat :=
  match ls.stack with
  | [] => 0
  | (_, l) :: _ => l

/-- Modelled from the spec: activating layer l anchored at input i pushes
(i, l); the stack depth is bounded by 5 and a push onto a full stack is
dropped (the claims never exercise a full stack). -/
def Layers.activate (ls : Layers) (anchor layer : Nat) : Layers :=
  if ls.stack.length < 5 then { stack := (anchor, layer) :: ls.stack } else ls

/-- Modelled from the spec: on a Deactivated event for input i, if the top
anchor is i the stack is popped and true returned; otherwise the stack is
unchanged and false returned. -/
def Layers.maybeDeactivate (ls : Layers) (input : Nat) : Layers × Bool :=
  match ls.stack with
  | (anchor, _) :: rest =>
      if anchor = input then ({ stack := rest }, true) else (ls, false)
  | [] => (ls, false)

/-- Modelled from the spec: clearing the layer stack returns to the default
layer. -/
def Layers.reset (_ : Layers) : Layers := { stack := [] }

/-- Modelled from the spec: binding lookup is an exact match on
(input, layer, trigger) with no fallback, and the table holds at most one
binding per triple. -/
def bindingFilter (bs : List Binding) (idx layer : Nat) (trigger : Trigger) :
    Option Binding :=
  bs.find? fun b => b.idx = idx ∧ b.layer = layer ∧ b.trigger = trigger

/-- Modelled from the spec: re-binding the same (input, layer, trigger)
triple overwrites the previous entry; a new triple is appended (the table
capacity of 30 entries is not modelled; the claims never fill it). -/
def bindingBind (bs : List Binding) (b : Binding) : List Binding :=
  match bs with
  | [] => [b]
  | h :: t =>
      if h.idx = b.idx ∧ h.layer = b.layer ∧ h.trigger = b.trigger then b :: t
      else h :: bindingBind t b

/-- Executor state (src/buttonsmash/microvm.rs lines 40-51): layer stack,
binding table, 1024-slot opcode array, 128-entry procedure start index and
the 32 registers. -/
structure Vm where
  layers : Layers
  bindings : List Binding
  opcodes : List Opcode
  procedures : List Nat
  registers : List Nat
deriving DecidableEq

/-- Visible effects of executing opcodes and dispatching events. -/
inductive VmEffect where
  | boardToggle (o : Nat)
  | boardSet (o : Nat) (high : Bool)
  | txOutputChanged (o : Nat) (state : Bool)
  | outputErrorInc
  | txInputChanged (i : Nat) (t : Trigger)
  | shutterSendEff (idx : Nat) (cmd : ShCmd)
  | statusReport
deriving DecidableEq

/-- Result of running VM code: normal completion, a Rust panic, or fuel
exhaustion of the model (the source loop has no fuel bound). -/
inductive VmRes (α : Type) where
  | ok (a : α)
  | panicked
  | fuelOut
deriving DecidableEq

/-- The board call results: some final state if the driver call succeeded
(the new output level), none on a driver error.  This oracle stands for
board.toggle_output and board.set_output. -/
def BoardOracle : Type := Nat → Option Bool

/-- Executor::alter_output (src/buttonsmash/microvm.rs lines 126-147): call
the driver, then on success broadcast OutputChanged with the Drop policy, on
failure bump expander_output_error.  For a toggle the oracle's answer is the
new state; for set the requested level is the new state and the oracle only
decides success. -/
def alterToggle (bo : BoardOracle) (o : Nat) : List VmEffect :=
  .boardToggle o ::
    match bo o with
    | some st => [.txOutputChanged o st]
    | none => [.outputErrorInc]

/-- alter_output for ActivateOutput / DeactivateOutput: set_output(o, high)
mapped to the requested level on success (microvm.rs lines 130-137). -/
def alterSet (bo : BoardOracle) (o : Nat) (high : Bool) : List VmEffect :=
  .boardSet o high ::
    match bo o with
    | some _ => [.txOutputChanged o high]
    | none => [.outputErrorInc]

/-- Stepping outcome of one opcode (microvm.rs MicroState lines 53-62). -/
inductive MicroStep where
  | continueStep
  | stopStep
  | callProc (p : Nat)
deriving DecidableEq

/-- Executor::bind_proc (microvm.rs lines 209-216). -/
def vmBindProc (vm : Vm) (idx : Nat) (trigger : Trigger) (p : Nat) : Vm :=
  let b : Binding :=
    { idx := idx, trigger := trigger, layer := vm.layers.current, action := .proc p }
  { vm with bindings := bindingBind vm.bindings b }

/-- Executor::bind_single (microvm.rs lines 219-226). -/
def vmBindSingle (vm : Vm) (idx : Nat) (trigger : Trigger) (c : VmCommand) : Vm :=
  let b : Binding :=
    { idx := idx, trigger := trigger, layer := vm.layers.current, action := .single c }
  { vm with bindings := bindingBind vm.bindings b }

/-- Executor::execute_opcode (src/buttonsmash/microvm.rs lines 228-371).
Panics of the source — executing a Start opcode, a register index at or
beyond 32, a LayerPush layer above MAX_LAYERS = 128 — are VmRes.panicked. -/
def executeOpcode (bo : BoardOracle) (vm : Vm) :
    Opcode → VmRes (MicroStep × Vm × List VmEffect)
  | .noop => .ok (.continueStep, vm, [])
  | .stop => .ok (.stopStep, vm, [])
  | .start _ => .panicked
  | .call p => .ok (.callProc p, vm, [])
  | .callRegister r =>
      if r < 32 then .ok (.callProc (vm.registers.getD r 0), vm, [])
      else .panicked
  | .setRegister r v =>
      if r < 32 then .ok (.continueStep, { vm with registers := vm.registers.set r v }, [])
      else .panicked
  | .toggle o => .ok (.continueStep, vm, alterToggle bo o)
  | .activate o => .ok (.continueStep, vm, alterSet bo o true)
  | .deactivate o => .ok (.continueStep, vm, alterSet bo o false)
  | .layerPush l =>
      if l ≤ 128 then .ok (.continueStep, { vm with layers := vm.layers.activate 0 l }, [])
      else .panicked
  | .layerPop =>
      .ok (.continueStep, { vm with layers := (vm.layers.maybeDeactivate 0).1 }, [])
  | .layerSet l =>
      .ok (.continueStep, { vm with layers := (vm.layers.reset).activate 0 l }, [])
  | .layerDefault => .ok (.continueStep, { vm with layers := vm.layers.reset }, [])
  | .bindClearAll => .ok (.continueStep, { vm with bindings := [] }, [])
  | .bindShortCall i p => .ok (.continueStep, vmBindProc vm i .shortClick p, [])
  | .bindLongCall i p => .ok (.continueStep, vmBindProc vm i .longClick p, [])
  | .bindActivateCall i p => .ok (.continueStep, vmBindProc vm i .activated p, [])
  | .bindDeactivateCall i p => .ok (.continueStep, vmBindProc vm i .deactivated p, [])
  | .bindLongActivate i p => .ok (.continueStep, vmBindProc vm i .longActivated p, [])
  | .bindLongDeactivate i p => .ok (.continueStep, vmBindProc vm i .longDeactivated p, [])
  | .bindShortToggle i o =>
      .ok (.continueStep, vmBindSingle vm i .shortClick (.toggleOutput o), [])
  | .bindLongToggle i o =>
      .ok (.continueStep, vmBindSingle vm i .longClick (.toggleOutput o), [])
  | .bindLayerHold i l =>
      .ok (.continueStep, vmBindSingle vm i .activated (.activateLayer l), [])
  | .bindShutter sh d u =>
      .ok (.continueStep, vm, [.shutterSendEff sh (.setIo d u)])
  | .sendStatus => .ok (.continueStep, vm, [.statusReport])

/-- The body of Executor::execute's loop (microvm.rs lines 381-405): advance
the program counter, read the opcode (a counter past the 1024-slot array is
a Rust index panic), execute it, and follow the MicroState: on Stop pop the
return stack or finish, on CallProc check for stack overflow (MAX_STACK = 3,
panic) and for a procedure index beyond MAX_PROCEDURES = 128 (index panic),
then jump. -/
def execLoop (bo : BoardOracle) :
    Nat → Vm → Nat → List Nat → List VmEffect → VmRes (Vm × List VmEffect)
  | 0, _, _, _, _ => .fuelOut
  | fuel + 1, vm, pc, stack, effs =>
      let pc2 := pc + 1
      if vm.opcodes.length ≤ pc2 then .panicked
      else
        match executeOpcode bo vm (vm.opcodes.getD pc2 .noop) with
        | .panicked => .panicked
        | .fuelOut => .fuelOut
        | .ok (step, vm2, newEffs) =>
            let effs2 := effs ++ newEffs
            match step with
            | .continueStep => execLoop bo fuel vm2 pc2 stack effs2
            | .stopStep =>
                match stack with
                | [] => .ok (vm2, effs2)
                | ret :: rest => execLoop bo fuel vm2 ret rest effs2
            | .callProc p =>
                if stack.length = 3 then .panicked
                else if 128 ≤ p then .panicked
                else execLoop bo fuel vm2 (vm2.procedures.getD p 0) (pc2 :: stack) effs2

/-- Executor::execute (src/buttonsmash/microvm.rs lines 373-406): look up the
procedure start, assert that the opcode there is Start(proc) (assert_eq,
panic when it is not), then run the loop.  A procedure index at or beyond
the 128-entry table is a Rust index panic. -/
def execute (bo : BoardOracle) (vm : Vm) (proc : Nat) (fuel : Nat) :
    VmRes (Vm × List VmEffect) :=
  if 128 ≤ proc then .panicked
  else
    let pc := vm.procedures.getD proc 0
    if vm.opcodes.length ≤ pc then .panicked
    else if vm.opcodes.getD pc .noop ≠ .start proc then .panicked
    else execLoop bo fuel vm pc [] []

/-- Executor::index_code (src/buttonsmash/microvm.rs lines 409-419): reset
the 128-entry table to 0, then record the offset of each Start opcode.  (A
Start argument at or beyond 128 would be an index panic in the source; such
programs are excluded by the theorems, and List.set ignores them here.) -/
def indexCode (ops : List Opcode) : List Nat :=
  ops.enum.foldl
    (fun procs oi =>
      match oi.2 with
      | .start p => procs.set p oi.1
      | _ => procs)
    (List.replicate 128 0)

/-- The opcode store of load_static (microvm.rs lines 90-98 with the
1024-slot array of line 82): the program is copied over an array of Noop. -/
def padProgram (ops : List Opcode) : List Opcode :=
  ops ++ List.replicate (1024 - ops.length) .noop

/-- Dispatch of a found binding inside Executor::parse_event
(src/buttonsmash/microvm.rs lines 440-470).  The DeactivateLayer command is
a todo!() in the source, hence a panic. -/
def dispatchBinding (bo : BoardOracle) (vm : Vm) (input : Nat) (fuel : Nat) :
    Option Binding → VmRes (Vm × List VmEffect)
  | none => .ok (vm, [])
  | some b =>
      match b.action with
      | .actNoop => .ok (vm, [])
      | .single c =>
          match c with
          | .activateLayer l => .ok ({ vm with layers := vm.layers.activate input l }, [])
          | .deactivateLayer _ => .panicked
          | .cmdNoop => .ok (vm, [])
          | .toggleOutput o => .ok (vm, alterToggle bo o)
          | .activateOutput o => .ok (vm, alterSet bo o true)
          | .deactivateOutput o => .ok (vm, alterSet bo o false)
          | .shutter idx cmd => .ok (vm, [.shutterSendEff idx cmd])
      | .proc p => execute bo vm p fuel

/-- Executor::parse_event (src/buttonsmash/microvm.rs lines 422-498).  For a
local button event: a Deactivated trigger whose input anchors the top of the
layer stack pops the stack and returns at once (lines 426-433) — in that
path no InputChanged broadcast happens; otherwise the binding is looked up,
dispatched, and afterwards InputChanged is broadcast with the Wait policy
(lines 472-478).  Remote events forward to execute, alter_output or
send_status. -/
def parseEvent (bo : BoardOracle) (vm : Vm) (fuel : Nat) :
    VmEvent → VmRes (Vm × List VmEffect)
  | .buttonEvent i trg =>
      let md := vm.layers.maybeDeactivate i
      if trg = .deactivated ∧ md.2 = true then .ok ({ vm with layers := md.1 }, [])
      else
        match dispatchBinding bo vm i fuel
            (bindingFilter vm.bindings i vm.layers.current trg) with
        | .ok (vm2, effs) => .ok (vm2, effs ++ [.txInputChanged i trg])
        | .panicked => .panicked
        | .fuelOut => .fuelOut
  | .remoteProcedureCall p => execute bo vm p fuel
  | .remoteToggle o => .ok (vm, alterToggle bo o)
  | .remoteActivate o => .ok (vm, alterSet bo o true)
  | .remoteDeactivate o => .ok (vm, alterSet bo o false)
  | .remoteStatusRequest => .ok (vm, [.statusReport])

/-! ## Concrete states used by witnesses and counterexamples -/

/-- A board oracle whose driver calls all fail. -/
def boardOracleNone : BoardOracle := fun _ => none

/-- A shutter currently moving up since instant 0, positions and targets at
the open limit, already synchronized. -/
def shutterUpExample : ShutterState :=
  { cfg := ShutterCfg.new 1 2, posHeight := 0, posTilt := 0,
    tgtHeight := 0, tgtTilt := 0, action := .up 0, inSync := true }

/-- A shutter in Cooldown since instant 0. -/
def shutterCooldownExample : ShutterState :=
  { cfg := ShutterCfg.new 1 2, posHeight := 0, posTilt := 0,
    tgtHeight := 0, tgtTilt := 0, action := .cooldown 0, inSync := true }

/-- A sleeping shutter. -/
def shutterSleepExample : ShutterState :=
  { cfg := ShutterCfg.new 1 2, posHeight := 0, posTilt := 0,
    tgtHeight := 0, tgtTilt := 0, action := .sleep, inSync := true }

/-- An output driver with one native output of index 7 and no expander. -/
def outCfgExample : OutCfg :=
  { indices := [7], activeLow := [false], numExpanders := 0, numNative := 1,
    expanderOk := fun _ _ _ => true, nativeOk := fun _ _ => true }

/-- A VM whose layer stack holds layer 9 anchored at input 3. -/
def vmLayerExample : Vm :=
  { layers := { stack := [(3, 9)] }, bindings := [], opcodes := [],
    procedures := [], registers := [] }

/-- A VM with an empty layer stack and no bindings. -/
def vmEmptyExample : Vm :=
  { layers := { stack := [] }, bindings := [], opcodes := [],
    procedures := [], registers := [] }

/-- The two-opcode program consisting of procedure 0 alone. -/
def opsExample : List Opcode := [.start 0, .stop]

/-- The VM state after loading opsExample: padded opcode store and the
procedure index built from it. -/
def vmLoadedExample : Vm :=
  { layers := { stack := [] }, bindings := [],
    opcodes := padProgram opsExample,
    procedures := indexCode (padProgram opsExample),
    registers := List.replicate 32 0 }

/-! ## Theorems -/

/-! ### C1 — input scanner debounce counter -/

/-- Auxiliary: one active poll leaves the counter unchanged and, from a
counter below 2, emits nothing. -/
theorem scanStep_active_counter (c : Nat) : (scanStep true c).1 = c := by
  simp only [scanStep, if_true]
  split_ifs <;> rfl

/-- C1.  The specification says the per-line counter is incremented on each
active poll, an Activated event is emitted when it reaches MIN = 2, Active
while above, and Deactivated on release.  In the source the saturating_add
result is discarded (src/io/expander_switches.rs line 114), so the counter
never leaves 0 and the scanner emits no event at all: any run of active
polls, and the release after them, produce an empty event list. -/
theorem c1_scanner_counter_never_increments :
    scanRun 0 [true, true] = (0, []) ∧
    scanRun 0 [true, true, true, true, false] = (0, []) := by
  constructor <;> rfl

/-- C1 generalisation: active polls from a reset counter never emit anything,
for any poll count. -/
theorem scanRun_active_silent (n : Nat) :
    scanRun 0 (List.replicate n true) = (0, []) := by
  induction n with
  | zero => rfl
  | succ n ih => simp [List.replicate_succ, scanRun, scanStep, ih]

/-! ### C4 — shutter command codec round trip -/

/-- C4.  The round trip decode(encode(c)) returns c for eight of the nine
commands, but Cmd::from_raw maps the TiltClose code 5 to Cmd::Close
(src/buttonsmash/shutters.rs line 81), so encoding TiltClose and decoding
yields Close, not TiltClose. -/
theorem c4_tiltclose_roundtrip_broken :
    ShCmd.from_raw (ShCmd.to_raw .tiltClose) = some .fullClose ∧
    ShCmd.from_raw (ShCmd.to_raw .tiltClose) ≠ some .tiltClose ∧
    ShCmd.from_raw (ShCmd.to_raw (.go 40 60)) = some (.go 40 60) ∧
    ShCmd.from_raw (ShCmd.to_raw .fullOpen) = some .fullOpen ∧
    ShCmd.from_raw (ShCmd.to_raw .fullClose) = some .fullClose ∧
    ShCmd.from_raw (ShCmd.to_raw (.tilt 30)) = some (.tilt 30) ∧
    ShCmd.from_raw (ShCmd.to_raw .tiltOpen) = some .tiltOpen ∧
    ShCmd.from_raw (ShCmd.to_raw .tiltHalf) = some .tiltHalf ∧
    ShCmd.from_raw (ShCmd.to_raw .tiltReverse) = some .tiltReverse ∧
    ShCmd.from_raw (ShCmd.to_raw (.setIo 13 14)) = some (.setIo 13 14) := by
  decide

/-! ### C5 — event converter policy threshold -/

/-- C5 counterexample.  With the claimed threshold MAX_SHORT = 400,
Deactivated(350) would map to ShortClick then Deactivated; the source uses
MAX_SHORT_MS = 300 and emits LongClick, LongDeactivated, Deactivated. -/
theorem c5_counterexample_threshold :
    convertEvent (.deactivated 350) = [.longClick, .longDeactivated, .deactivated] ∧
    convertEvent (.deactivated 350) ≠ policyWith 400 (.deactivated 350) ∧
    policyWith 400 (.deactivated 350) = [.shortClick, .deactivated] := by
  decide

/-- C5 amended.  The converter implements exactly the claimed policy with
threshold 300 ms instead of 400 ms. -/
theorem c5_converter_policy_300 (e : SwitchState) :
    convertEvent e = policyWith 300 e := by
  cases e <;> rfl

/-! ### C6 — address filtering of received messages -/

/-- Dispatch of any parsed message other than ShutterCmd and
TimeAnnouncement has no effect when the frame is not addressed to this
node. -/
theorem handleBusMessage_not_us (localAddr dstAddr : Nat) (m : BusMessage)
    (hto : ¬ (dstAddr = localAddr ∨ dstAddr = BROADCAST_ADDRESS))
    (hsh : ∀ i c, m ≠ .shutterCmd i c)
    (hta : ∀ y mo d h mi s dow, m ≠ .timeAnnouncement y mo d h mi s dow) :
    handleBusMessage localAddr dstAddr m = [] := by
  cases m
  case shutterCmd i c => exact absurd rfl (hsh i c)
  case timeAnnouncement y mo d h mi s dow => exact absurd rfl (hta y mo d h mi s dow)
  all_goals simp [handleBusMessage, hto]

/-- A message parsed from a request-class frame type is never a ShutterCmd
(from_raw has no arm for it) nor a TimeAnnouncement. -/
theorem messageFromRaw_request_shape (msgType length : Nat) (data : List Nat)
    (m : BusMessage) (h : messageFromRaw msgType length data = some m)
    (hreq : msgType = 8 ∨ msgType = 9 ∨ msgType = 10 ∨ msgType = 11 ∨
      msgType = 13 ∨ msgType = 30) :
    (∀ i c, m ≠ .shutterCmd i c) ∧
    (∀ y mo d h2 mi s dow, m ≠ .timeAnnouncement y mo d h2 mi s dow) := by
  simp only [messageFromRaw] at h
  split_ifs at h <;>
    first
      | exact Option.noConfusion h
      | (rcases Option.map_eq_some'.mp h with ⟨a, _, hfa⟩
         subst hfa
         exact ⟨fun i c hne => BusMessage.noConfusion hne,
                fun y mo d h2 mi s dow hne => BusMessage.noConfusion hne⟩)
      | (injection h with h2
         subst h2
         exact ⟨fun i c hne => BusMessage.noConfusion hne,
                fun y mo d h2 mi s dow hne => BusMessage.noConfusion hne⟩)
      | (injection h with h2
         subst h2
         exfalso
         rcases hreq with rfl | rfl | rfl | rfl | rfl | rfl <;> omega)

/-- C6.  A received request-class frame (SetOutput 0x08, TriggerInput 0x09,
CallProcedure 0x0A, ShutterCmd 0x0B, RequestStatus 0x0D, Ping 0x1E) whose
destination address is neither the local address nor the broadcast address
0x3F has no effect on local state, outputs or shutters.  The SetOutput,
TriggerInput, CallProcedure, RequestStatus and Ping dispatch arms check the
address; a ShutterCmd frame never even reaches the dispatch, because
Message::from_raw has no CALL_SHUTTER arm and drops the frame, which makes
the unguarded ShutterCmd dispatch arm (ctrl_app.rs lines 328-331)
unreachable for received frames. -/
theorem c6_request_filtering (localAddr dstAddr msgType length : Nat)
    (data : List Nat) (h1 : dstAddr ≠ localAddr) (h2 : dstAddr ≠ BROADCAST_ADDRESS)
    (hreq : msgType = 8 ∨ msgType = 9 ∨ msgType = 10 ∨ msgType = 11 ∨
      msgType = 13 ∨ msgType = 30) :
    handleFrame localAddr dstAddr msgType length data = [] := by
  have hto : ¬ (dstAddr = localAddr ∨ dstAddr = BROADCAST_ADDRESS) := by
    rintro (h | h)
    · exact h1 h
    · exact h2 h
  rcases hm : messageFromRaw msgType length data with _ | m
  · simp [handleFrame, hm]
  · have hshape := messageFromRaw_request_shape msgType length data m hm hreq
    simp only [handleFrame, hm]
    exact handleBusMessage_not_us localAddr dstAddr m hto hshape.1 hshape.2

/-- C6 witness: with local address 1, a ShutterCmd frame (type 0x0B,
payload TiltReverse for shutter 0) addressed to node 5 has no effect, and
likewise a SetOutput frame addressed to node 5. -/
theorem c6_request_filtering_witness :
    handleFrame 1 5 11 7 [0, 8, 0, 0, 0, 0, 0] = [] ∧
    handleFrame 1 5 8 2 [2, 1] = [] := by
  constructor
  · exact c6_request_filtering 1 5 11 7 [0, 8, 0, 0, 0, 0, 0] (by decide) (by decide)
      (by decide)
  · exact c6_request_filtering 1 5 8 2 [2, 1] (by decide) (by decide) (by decide)

/-! ### C7 — Wait transmit retry policy -/

/-- Behaviour of the retry loop: success exactly when one of the n attempts
succeeds, total sleep bounded by the backoff sum with equality on
exhaustion, and the can_drop increment on exhaustion only. -/
theorem waitRetryLoop_spec (tries : Nat → Bool) :
    ∀ (n w acc : Nat),
      ((waitRetryLoop tries n w acc).success = true ↔
        ∃ j, j < n ∧ tries (w + j) = true) ∧
      (waitRetryLoop tries n w acc).sleepUs ≤ acc + sumBackoff n w ∧
      ((waitRetryLoop tries n w acc).success = false →
        (waitRetryLoop tries n w acc).sleepUs = acc + sumBackoff n w ∧
        (waitRetryLoop tries n w acc).canDropInc = 1) ∧
      ((waitRetryLoop tries n w acc).success = true →
        (waitRetryLoop tries n w acc).canDropInc = 0) := by
  intro n
  induction n with
  | zero =>
      intro w acc
      simp [waitRetryLoop, sumBackoff]
  | succ n ih =>
      intro w acc
      by_cases h : tries w = true
      · have hdef : waitRetryLoop tries (n + 1) w acc =
            { success := true, sleepUs := acc + (600 + w * 500), canDropInc := 0 } := by
          simp [waitRetryLoop, h]
        refine ⟨?_, ?_, ?_, ?_⟩
        · rw [hdef]
          simp only [true_iff]
          exact ⟨0, by omega, by simpa using h⟩
        · rw [hdef]
          simp only [sumBackoff]
          omega
        · rw [hdef]
          intro hf
          simp at hf
        · intro _
          rw [hdef]
      · have hrec := ih (w + 1) (acc + (600 + w * 500))
        have hdef : waitRetryLoop tries (n + 1) w acc =
            waitRetryLoop tries n (w + 1) (acc + (600 + w * 500)) := by
          simp [waitRetryLoop, h]
        rw [hdef]
        have hsum : acc + sumBackoff (n + 1) w =
            acc + (600 + w * 500) + sumBackoff n (w + 1) := by
          simp [sumBackoff]; omega
        refine ⟨?_, ?_, ?_, ?_⟩
        · rw [hrec.1]
          constructor
          · rintro ⟨j, hj, htr⟩
            refine ⟨j + 1, by omega, ?_⟩
            have he : w + (j + 1) = w + 1 + j := by omega
            rwa [he]
          · rintro ⟨j, hj, htr⟩
            cases j with
            | zero => exact absurd (by simpa using htr) h
            | succ j =>
                refine ⟨j, by omega, ?_⟩
                have he : w + 1 + j = w + (j + 1) := by omega
                rwa [he]
        · rw [hsum]; exact hrec.2.1
        · intro hf
          rw [hsum]
          exact hrec.2.2.1 hf
        · exact hrec.2.2.2

/-- C7 counterexample.  When the queue stays full through all retries, the
total time slept is 22800 microseconds, not under 10 ms, and the first
backoff sleep is 1100 microseconds (wait_time starts at 1), not about
600: the claim's stated figures do not match the source. -/
theorem c7_counterexample_backoff_figures :
    transmitWait (fun _ => false) =
      { success := false, sleepUs := 22800, canDropInc := 1 } ∧
    ¬ (transmitWait (fun _ => false)).sleepUs ≤ 10000 ∧
    sumBackoff 1 1 = 1100 ∧
    sumBackoff 8 1 = 22800 := by
  decide

/-- C7 amended.  transmit with the Wait policy makes at most 8 retries after
the first attempt; the backoff starts at 1100 microseconds and steps by
500 microseconds, so the total sleep is bounded by 22.8 ms (reached on
exhaustion, when can_drop is incremented once and false is returned); the
call returns true exactly when the initial attempt or one of the 8 retries
succeeds, and then can_drop is untouched. -/
theorem c7_wait_retry_behaviour (tries : Nat → Bool) :
    ((transmitWait tries).success = true ↔ ∃ k, k ≤ 8 ∧ tries k = true) ∧
    (transmitWait tries).sleepUs ≤ 22800 ∧
    ((transmitWait tries).success = false →
      (transmitWait tries).sleepUs = 22800 ∧ (transmitWait tries).canDropInc = 1) ∧
    ((transmitWait tries).success = true → (transmitWait tries).canDropInc = 0) := by
  by_cases h0 : tries 0 = true
  · refine ⟨?_, ?_, ?_, ?_⟩ <;> simp [transmitWait, h0]
    exact ⟨0, by omega, h0⟩
  · have hdef : transmitWait tries = waitRetryLoop tries 8 1 0 := by
      simp [transmitWait, h0]
    have hs := waitRetryLoop_spec tries 8 1 0
    have hsum : (0 : Nat) + sumBackoff 8 1 = 22800 := by decide
    rw [hdef]
    refine ⟨?_, ?_, ?_, ?_⟩
    · rw [hs.1]
      constructor
      · rintro ⟨j, hj, htr⟩
        exact ⟨1 + j, by omega, htr⟩
      · rintro ⟨k, hk, htr⟩
        cases k with
        | zero => exact absurd htr h0
        | succ k => exact ⟨k, by omega, by simpa [Nat.add_comm] using htr⟩
    · have := hs.2.1
      omega
    · intro hf
      have := hs.2.2.1 hf
      omega
    · exact hs.2.2.2

/-- C7 witness: on a permanently full queue the amended bound is attained and
the drop counter is incremented. -/
theorem c7_wait_retry_behaviour_witness :
    (transmitWait (fun _ => false)).sleepUs = 22800 ∧
    (transmitWait (fun _ => false)).canDropInc = 1 :=
  (c7_wait_retry_behaviour (fun _ => false)).2.2.1 (by decide)

/-! ### C8 — output driver cache coherence -/

/-- A found position is within the index table. -/
theorem findId_lt_length : ∀ {l : List Nat} {i p : Nat},
    findId l i = some p → p < l.length := by
  intro l
  induction l with
  | nil => intro i p h; simp [findId] at h
  | cons x xs ih =>
      intro i p h
      simp only [findId] at h
      split_ifs at h with hx
      · have hp : p = 0 := by
          simpa using h.symm
        simp [hp]
      · rcases Option.map_eq_some'.mp h with ⟨q, hq, hqp⟩
        have := ih hq
        simp only [List.length_cons]
        omega

/-- Reading back the entry just set. -/
theorem getD_set_self {α : Type} {l : List α} {p : Nat} {v d : α}
    (h : p < l.length) : (l.set p v).getD p d = v := by
  induction l generalizing p with
  | nil => simp at h
  | cons x xs ih =>
      cases p with
      | zero => rfl
      | succ p =>
          simp only [List.set, List.getD, List.getElem?_cons_succ]
          have hlt : p < xs.length := by simpa using h
          simpa [List.getD] using ih hlt

/-- setOut at a found position either succeeds and writes the cache slot, or
does not succeed and leaves the cache alone. -/
theorem setOut_found_cases (cfg : OutCfg) (st : List Bool) (idx v p)
    (hf : findId cfg.indices idx = some p) :
    ((setOut cfg st idx v).1 = .ok ∧ (setOut cfg st idx v).2 = st.set p v) ∨
    ((setOut cfg st idx v).1 ≠ .ok ∧ (setOut cfg st idx v).2 = st) := by
  simp only [setOut, hf]
  split_ifs <;> simp

/-- toggleOut at a found position is setOut of the negated cached state,
returning the negation on success. -/
theorem toggleOut_found_eq (cfg : OutCfg) (st : List Bool) (idx p)
    (hf : findId cfg.indices idx = some p) :
    toggleOut cfg st idx =
      ((setOut cfg st idx (!(st.getD p false))).1,
       (setOut cfg st idx (!(st.getD p false))).2,
       if (setOut cfg st idx (!(st.getD p false))).1 = .ok
       then some (!(st.getD p false)) else none) := by
  simp only [toggleOut, hf]

/-- C8.  After set(idx, v) returns Ok the cache reads Some(v); after
toggle(idx) returns Ok the returned value is the negation of the previously
cached state and the cache reads it back; and on an Err result from set or
toggle the cache is unchanged. -/
theorem c8_output_cache_coherence (cfg : OutCfg) (st : List Bool) (idx : Nat)
    (v : Bool) (hlen : st.length = cfg.indices.length) :
    ((setOut cfg st idx v).1 = .ok → getOut cfg (setOut cfg st idx v).2 idx = some v) ∧
    ((setOut cfg st idx v).1 = .err → (setOut cfg st idx v).2 = st) ∧
    ((toggleOut cfg st idx).1 = .ok →
      ∃ c, getOut cfg st idx = some c ∧
        (toggleOut cfg st idx).2.2 = some (!c) ∧
        getOut cfg (toggleOut cfg st idx).2.1 idx = some (!c)) ∧
    ((toggleOut cfg st idx).1 = .err → (toggleOut cfg st idx).2.1 = st) := by
  rcases hf : findId cfg.indices idx with _ | p
  · refine ⟨?_, ?_, ?_, ?_⟩ <;> simp [setOut, toggleOut, hf]
  · have hp : p < cfg.indices.length := findId_lt_length hf
    have hps : p < st.length := by omega
    have hget : ∀ w : List Bool, getOut cfg w idx = some (w.getD p false) := by
      intro w
      simp [getOut, hf]
    have htog := toggleOut_found_eq cfg st idx p hf
    refine ⟨?_, ?_, ?_, ?_⟩
    · intro hok
      rcases setOut_found_cases cfg st idx v p hf with ⟨_, h2⟩ | ⟨h1, _⟩
      · rw [h2, hget, getD_set_self hps]
      · exact absurd hok h1
    · intro herr
      rcases setOut_found_cases cfg st idx v p hf with ⟨h1, _⟩ | ⟨_, h2⟩
      · rw [h1] at herr
        simp at herr
      · exact h2
    · intro hok
      rw [htog] at hok ⊢
      simp only at hok ⊢
      refine ⟨st.getD p false, hget st, ?_, ?_⟩
      · rw [if_pos hok]
      · rcases setOut_found_cases cfg st idx (!(st.getD p false)) p hf with ⟨_, h2⟩ | ⟨h1, _⟩
        · rw [h2, hget, getD_set_self hps]
        · exact absurd hok h1
    · intro herr
      rw [htog] at herr ⊢
      simp only at herr ⊢
      rcases setOut_found_cases cfg st idx (!(st.getD p false)) p hf with ⟨h1, _⟩ | ⟨_, h2⟩
      · rw [h1] at herr
        simp at herr
      · exact h2

/-- C8 witness: on the one-native-output driver with a cache holding false
for output 7, set(7, true) succeeds and the cache reads Some(true), and
toggle(7) returns Ok(true). -/
theorem c8_output_cache_coherence_witness :
    getOut outCfgExample (setOut outCfgExample [false] 7 true).2 7 = some true ∧
    (toggleOut outCfgExample [false] 7).2.2 = some true := by
  have h1 := c8_output_cache_coherence outCfgExample [false] 7 true (by decide)
  refine ⟨h1.1 (by decide), ?_⟩
  obtain ⟨c, hc, hv, _⟩ := h1.2.2.1 (by decide)
  have hx : getOut outCfgExample [false] 7 = some false := by decide
  have hcf : false = c := by
    injection hx.symm.trans hc
  rw [← hcf] at hv
  simpa using hv

/-! ### C2, C3 — shutter direction-change safety and SetIO handling -/

/-- From an Up movement, update either keeps moving up (restamped at now) or
stops into Cooldown(now). -/
theorem updateS_act_up (s : ShutterState) (now t : Nat) (h : s.action = .up t) :
    (updateS s now).1.action = .up now ∨ (updateS s now).1.action = .cooldown now := by
  simp only [updateS]
  split <;> simp_all <;> split_ifs <;> simp_all

/-- From a Down movement, update either keeps moving down or stops into
Cooldown(now). -/
theorem updateS_act_down (s : ShutterState) (now t : Nat) (h : s.action = .down t) :
    (updateS s now).1.action = .down now ∨ (updateS s now).1.action = .cooldown now := by
  simp only [updateS]
  split <;> simp_all <;> split_ifs <;> simp_all

/-- From Cooldown(t), update goes to Idle exactly when COOLDOWN has elapsed,
else stays in Cooldown(t). -/
theorem updateS_act_cooldown (s : ShutterState) (now t : Nat)
    (h : s.action = .cooldown t) :
    (updateS s now).1.action =
      (if COOLDOWN ≤ now - t then .idle else .cooldown t) := by
  simp only [updateS]
  split <;> simp_all <;> split_ifs <;> simp_all

/-- From Idle or Sleep, update starts Up(now) or Down(now) or goes to
Sleep. -/
theorem updateS_act_idle_sleep (s : ShutterState) (now : Nat)
    (h : s.action = .idle ∨ s.action = .sleep) :
    (updateS s now).1.action = .up now ∨ (updateS s now).1.action = .down now ∨
      (updateS s now).1.action = .sleep := by
  simp only [updateS]
  rcases h with h | h <;> (split <;> simp_all <;> split_ifs <;> simp_all)

/-- finish stops an Up movement into Cooldown(now). -/
theorem finishS_act_up (s : ShutterState) (now t : Nat) (h : s.action = .up t) :
    (finishS s now).action = .cooldown now := by
  simp only [finishS]
  split <;> simp_all

/-- finish stops a Down movement into Cooldown(now). -/
theorem finishS_act_down (s : ShutterState) (now t : Nat) (h : s.action = .down t) :
    (finishS s now).action = .cooldown now := by
  simp only [finishS]
  split <;> simp_all

/-- finish leaves a Cooldown alone. -/
theorem finishS_act_cooldown (s : ShutterState) (now c : Nat)
    (h : s.action = .cooldown c) : (finishS s now).action = .cooldown c := by
  simp only [finishS]
  split <;> simp_all

/-- set_target called on a shutter in Cooldown(c) runs update, which leaves
Cooldown unless the cooldown has elapsed. -/
theorem setTargetS_act_of_cooldown (s2 : ShutterState) (now : Nat) (th tt : ℚ)
    (c : Nat) (h : s2.action = .cooldown c) (r : ShutterState × Nat)
    (he : setTargetS s2 now th tt = some r) :
    r.1.action = (if COOLDOWN ≤ now - c then .idle else .cooldown c) := by
  simp only [setTargetS] at he
  split at he <;> simp_all
  subst he
  exact updateS_act_cooldown _ now c rfl

/-- A command received while the shutter is moving (Up or Down) either
panics (SetIO) or leaves the shutter in Cooldown(now): update and finish
stop the movement, and the re-planning update starts nothing before the
cooldown elapses. -/
theorem commandS_from_moving (cmd : ShCmd) (s : ShutterState) (now : Nat)
    (h : (∃ t, s.action = .up t) ∨ (∃ t, s.action = .down t)) (r : ShutterState)
    (hr : commandS cmd s now = some r) : r.action = .cooldown now := by
  have hne : ¬ (s.action = .sleep) := by
    rcases h with ⟨t, ht⟩ | ⟨t, ht⟩ <;> simp [ht]
  have hs1 : (finishS (updateS s now).1 now).action = .cooldown now := by
    rcases h with ⟨t, ht⟩ | ⟨t, ht⟩
    · rcases updateS_act_up s now t ht with hu | hu
      · exact finishS_act_up _ now now hu
      · exact finishS_act_cooldown _ now now hu
    · rcases updateS_act_down s now t ht with hu | hu
      · exact finishS_act_down _ now now hu
      · exact finishS_act_cooldown _ now now hu
  have main : ∀ (th2 tt2 : ℚ) (s2 : ShutterState), s2.action = .cooldown now →
      (setTargetS s2 now th2 tt2).map Prod.fst = some r →
      r.action = .cooldown now := by
    intro th2 tt2 s2 h2 hmap
    rcases Option.map_eq_some'.mp hmap with ⟨r2, hset, hr1⟩
    have hact := setTargetS_act_of_cooldown s2 now th2 tt2 now h2 r2 hset
    rw [Nat.sub_self, if_neg (by decide)] at hact
    rw [← hr1]
    exact hact
  cases cmd with
  | go hh tt2 =>
      simp only [commandS] at hr
      rw [if_pos hne] at hr
      exact main _ _ _ hs1 hr
  | fullOpen =>
      simp only [commandS] at hr
      rw [if_pos hne] at hr
      exact main _ _ _ (by split_ifs <;> exact hs1) hr
  | fullClose =>
      simp only [commandS] at hr
      rw [if_pos hne] at hr
      exact main _ _ _ (by split_ifs <;> exact hs1) hr
  | tilt v =>
      simp only [commandS] at hr
      rw [if_pos hne] at hr
      exact main _ _ _ hs1 hr
  | tiltClose =>
      simp only [commandS] at hr
      rw [if_pos hne] at hr
      exact main _ _ _ hs1 hr
  | tiltOpen =>
      simp only [commandS] at hr
      rw [if_pos hne] at hr
      exact main _ _ _ hs1 hr
  | tiltHalf =>
      simp only [commandS] at hr
      rw [if_pos hne] at hr
      exact main _ _ _ hs1 hr
  | tiltReverse =>
      simp only [commandS] at hr
      rw [if_pos hne] at hr
      exact main _ _ _ hs1 hr
  | setIo d u =>
      simp only [commandS] at hr
      rw [if_pos hne, if_neg (by simp [hs1])] at hr
      exact Option.noConfusion hr

/-- A command received during Cooldown(t) can only start a movement when at
least COOLDOWN milliseconds have passed since t. -/
theorem commandS_from_cooldown (cmd : ShCmd) (s : ShutterState) (now t : Nat)
    (h : s.action = .cooldown t) (r : ShutterState)
    (hr : commandS cmd s now = some r) (hm : r.action.isMoving = true) :
    COOLDOWN ≤ now - t := by
  by_cases hcd : COOLDOWN ≤ now - t
  · exact hcd
  · exfalso
    have hne : ¬ (s.action = .sleep) := by simp [h]
    have hu : (updateS s now).1.action = .cooldown t := by
      rw [updateS_act_cooldown s now t h, if_neg hcd]
    have hs1 : (finishS (updateS s now).1 now).action = .cooldown t :=
      finishS_act_cooldown _ now t hu
    have main : ∀ (th2 tt2 : ℚ) (s2 : ShutterState), s2.action = .cooldown t →
        (setTargetS s2 now th2 tt2).map Prod.fst = some r → False := by
      intro th2 tt2 s2 h2 hmap
      rcases Option.map_eq_some'.mp hmap with ⟨r2, hset, hr1⟩
      have hact := setTargetS_act_of_cooldown s2 now th2 tt2 t h2 r2 hset
      rw [if_neg hcd] at hact
      rw [hr1] at hact
      rw [hact] at hm
      simp [ShutterAction.isMoving, ShutterAction.isUp, ShutterAction.isDown] at hm
    cases cmd with
    | go hh tt2 =>
        simp only [commandS] at hr
        rw [if_pos hne] at hr
        exact main _ _ _ hs1 hr
    | fullOpen =>
        simp only [commandS] at hr
        rw [if_pos hne] at hr
        exact main _ _ _ (by split_ifs <;> exact hs1) hr
    | fullClose =>
        simp only [commandS] at hr
        rw [if_pos hne] at hr
        exact main _ _ _ (by split_ifs <;> exact hs1) hr
    | tilt v =>
        simp only [commandS] at hr
        rw [if_pos hne] at hr
        exact main _ _ _ hs1 hr
    | tiltClose =>
        simp only [commandS] at hr
        rw [if_pos hne] at hr
        exact main _ _ _ hs1 hr
    | tiltOpen =>
        simp only [commandS] at hr
        rw [if_pos hne] at hr
        exact main _ _ _ hs1 hr
    | tiltHalf =>
        simp only [commandS] at hr
        rw [if_pos hne] at hr
        exact main _ _ _ hs1 hr
    | tiltReverse =>
        simp only [commandS] at hr
        rw [if_pos hne] at hr
        exact main _ _ _ hs1 hr
    | setIo d u =>
        simp only [commandS] at hr
        rw [if_pos hne, if_neg (by simp [hs1])] at hr
        exact Option.noConfusion hr

/-- C2.  Direction-change safety of the shutter state machine: a single
update tick from Up never yields Down (it yields Up(now) or Cooldown(now)),
and symmetrically from Down; Cooldown(t) transitions to Idle only when at
least COOLDOWN = 500 ms have elapsed since t; an update tick starts a
movement only from Idle or Sleep (or continues one already in the same
direction); a command received while moving settles in Cooldown(now); and a
command received during Cooldown(t) results in a movement only when 500 ms
have elapsed since t.  Together these give that no reachable sequence of
commands and update ticks ever switches between Up and Down without an
intervening Cooldown of at least 500 ms. -/
theorem c2_direction_change_requires_cooldown (s : ShutterState) (now : Nat)
    (cmd : ShCmd) :
    (∀ t, s.action = .up t →
      (updateS s now).1.action = .up now ∨ (updateS s now).1.action = .cooldown now) ∧
    (∀ t, s.action = .down t →
      (updateS s now).1.action = .down now ∨ (updateS s now).1.action = .cooldown now) ∧
    (∀ t, s.action = .cooldown t → (updateS s now).1.action = .idle →
      COOLDOWN ≤ now - t) ∧
    ((updateS s now).1.action.isUp = true →
      s.action.isUp = true ∨ s.action = .idle ∨ s.action = .sleep) ∧
    ((updateS s now).1.action.isDown = true →
      s.action.isDown = true ∨ s.action = .idle ∨ s.action = .sleep) ∧
    (∀ t (r : ShutterState), (s.action = .up t ∨ s.action = .down t) →
      commandS cmd s now = some r → r.action = .cooldown now) ∧
    (∀ t (r : ShutterState), s.action = .cooldown t → commandS cmd s now = some r →
      r.action.isMoving = true → COOLDOWN ≤ now - t) := by
  refine ⟨updateS_act_up s now, updateS_act_down s now, ?_, ?_, ?_, ?_, ?_⟩
  · intro t ht hidle
    by_cases hcd : COOLDOWN ≤ now - t
    · exact hcd
    · have := updateS_act_cooldown s now t ht
      rw [hidle, if_neg hcd] at this
      exact absurd this (by simp)
  · intro hup
    rcases ha : s.action with _ | _ | t | t | t
    · exact Or.inr (Or.inl rfl)
    · exact Or.inr (Or.inr rfl)
    · exact Or.inl rfl
    · rcases updateS_act_down s now t ha with hd | hd <;>
        rw [hd] at hup <;> simp [ShutterAction.isUp] at hup
    · have := updateS_act_cooldown s now t ha
      rw [this] at hup
      split_ifs at hup <;> simp [ShutterAction.isUp] at hup
  · intro hdw
    rcases ha : s.action with _ | _ | t | t | t
    · exact Or.inr (Or.inl rfl)
    · exact Or.inr (Or.inr rfl)
    · rcases updateS_act_up s now t ha with hd | hd <;>
        rw [hd] at hdw <;> simp [ShutterAction.isDown] at hdw
    · exact Or.inl rfl
    · have := updateS_act_cooldown s now t ha
      rw [this] at hdw
      split_ifs at hdw <;> simp [ShutterAction.isDown] at hdw
  · intro t r hmov hr
    refine commandS_from_moving cmd s now ?_ r hr
    rcases hmov with hm | hm
    · exact Or.inl ⟨t, hm⟩
    · exact Or.inr ⟨t, hm⟩
  · intro t r hcool hr hm
    exact commandS_from_cooldown cmd s now t hcool r hr hm

/-- C2 witness: a shutter in Cooldown since instant 0 leaves Cooldown for
Idle at an update at instant 600, and the theorem confirms that at least
500 ms have then elapsed. -/
theorem c2_direction_change_requires_cooldown_witness :
    (updateS shutterCooldownExample 600).1.action = .idle ∧
      COOLDOWN ≤ 600 - 0 := by
  have he : (updateS shutterCooldownExample 600).1.action = .idle := rfl
  exact ⟨he, (c2_direction_change_requires_cooldown shutterCooldownExample 600
    .fullOpen).2.2.1 0 rfl he⟩

/-- C3 counterexample.  A SetIO command received while the shutter is in
Cooldown (not Sleep) does not return with the state unchanged: the command
panics on the assert_eq at src/buttonsmash/shutters.rs line 639 (modelled as
none), after update and finish have already run. -/
theorem c3_setio_counterexample :
    commandS (.setIo 3 4) shutterCooldownExample 100 = none ∧
    commandS (.setIo 3 4) shutterCooldownExample 100 ≠ some shutterCooldownExample := by
  constructor
  · rfl
  · intro h
    exact Option.noConfusion
      ((rfl : commandS (.setIo 3 4) shutterCooldownExample 100 = none).symm.trans h)

/-- C3 amended.  When the action is Sleep, SetIO installs the two output
indices and changes nothing else.  When the action is not Sleep, the command
first runs update and finish on the current movement; if the shutter has
then settled into Sleep the outputs are installed into that updated state,
and otherwise the entry assertion fails (a panic), rather than a graceful
rejection with unchanged state. -/
theorem c3_setio_behaviour (s : ShutterState) (now d u : Nat) :
    (s.action = .sleep →
      commandS (.setIo d u) s now =
        some { s with cfg := { s.cfg with down := d, up := u } }) ∧
    (s.action ≠ .sleep →
      commandS (.setIo d u) s now =
        (if (finishS (updateS s now).1 now).action = .sleep
         then some { (finishS (updateS s now).1 now) with
                      cfg := { (finishS (updateS s now).1 now).cfg with
                                down := d, up := u } }
         else none)) := by
  constructor
  · intro h
    simp only [commandS]
    have h1 : (if s.action ≠ ShutterAction.sleep
        then finishS (updateS s now).1 now else s) = s := if_neg (by simp [h])
    rw [h1, if_pos h]
  · intro h
    simp only [commandS]
    have h1 : (if s.action ≠ ShutterAction.sleep
        then finishS (updateS s now).1 now else s) =
        finishS (updateS s now).1 now := if_pos h
    rw [h1]

/-- C3 witness: on a sleeping shutter SetIO(5, 6) installs the outputs and
changes nothing else. -/
theorem c3_setio_behaviour_witness :
    commandS (.setIo 5 6) shutterSleepExample 0 =
      some { shutterSleepExample with
              cfg := { shutterSleepExample.cfg with down := 5, up := 6 } } :=
  (c3_setio_behaviour shutterSleepExample 0 5 6).1 rfl

/-! ### C9 — InputChanged broadcast for local button events -/

/-- C9 counterexample.  A Deactivated event for input 3 while the top of the
layer stack is anchored at input 3 pops the stack and returns before the
broadcast (src/buttonsmash/microvm.rs lines 426-433); no InputChanged
message is transmitted for that event. -/
theorem c9_anchor_pop_skips_broadcast :
    parseEvent boardOracleNone vmLayerExample 10 (.buttonEvent 3 .deactivated) =
      .ok ({ vmLayerExample with layers := { stack := [] } }, []) ∧
    VmEffect.txInputChanged 3 .deactivated ∉ ([] : List VmEffect) := by
  constructor
  · rfl
  · simp

/-- C9 amended.  For every local button event that completes without a
panic: if the event is a Deactivated whose input anchors the top of the
layer stack, the layer is popped and nothing is emitted (in particular no
InputChanged broadcast); for every other local button event the last effect
is the InputChanged broadcast, emitted after the dispatched action. -/
theorem c9_button_event_broadcast (bo : BoardOracle) (vm : Vm) (i : Nat)
    (trg : Trigger) (fuel : Nat) (vm2 : Vm) (effs : List VmEffect)
    (h : parseEvent bo vm fuel (.buttonEvent i trg) = .ok (vm2, effs)) :
    ((trg = .deactivated ∧ (vm.layers.maybeDeactivate i).2 = true) → effs = []) ∧
    (¬ (trg = .deactivated ∧ (vm.layers.maybeDeactivate i).2 = true) →
      effs.getLast? = some (.txInputChanged i trg)) := by
  by_cases hc : trg = .deactivated ∧ (vm.layers.maybeDeactivate i).2 = true
  · refine ⟨fun _ => ?_, fun hnc => absurd hc hnc⟩
    simp only [parseEvent] at h
    rw [if_pos hc] at h
    simp only [VmRes.ok.injEq, Prod.mk.injEq] at h
    exact h.2.symm
  · refine ⟨fun hx => absurd hx hc, fun _ => ?_⟩
    simp only [parseEvent] at h
    rw [if_neg hc] at h
    rcases hd : dispatchBinding bo vm i fuel
        (bindingFilter vm.bindings i vm.layers.current trg) with a | _ | _
    · rcases a with ⟨vm3, e3⟩
      rw [hd] at h
      simp only [VmRes.ok.injEq, Prod.mk.injEq] at h
      rw [← h.2]
      rw [List.getLast?_append_cons]
      rfl
    · rw [hd] at h
      exact VmRes.noConfusion h
    · rw [hd] at h
      exact VmRes.noConfusion h

/-- C9 witness: a short click on an input with no binding and an empty layer
stack still broadcasts InputChanged as its last (and only) effect. -/
theorem c9_button_event_broadcast_witness :
    [VmEffect.txInputChanged 1 .shortClick].getLast? =
      some (VmEffect.txInputChanged 1 .shortClick) := by
  have h := (c9_button_event_broadcast boardOracleNone vmEmptyExample 1 .shortClick 10
    vmEmptyExample [VmEffect.txInputChanged 1 .shortClick] rfl).2 (by simp)
  simpa using h

/-! ### C10 — unbound procedure indices panic the executor -/

/-- Setting one slot leaves the others alone. -/
theorem getD_set_ne {α : Type} : ∀ (l : List α) (q p : Nat) (v d : α),
    q ≠ p → (l.set q v).getD p d = l.getD p d := by
  intro l
  induction l with
  | nil => intro q p v d _; rfl
  | cons x xs ih =>
      intro q p v d h
      cases q with
      | zero =>
          cases p with
          | zero => exact absurd rfl h
          | succ p => rfl
      | succ q =>
          cases p with
          | zero => rfl
          | succ p =>
              simp only [List.set, List.getD, List.getElem?_cons_succ]
              simpa [List.getD] using ih q p v d (by omega)

/-- Every slot of the zeroed procedure table reads 0. -/
theorem getD_replicate_zero (n p : Nat) : (List.replicate n (0 : Nat)).getD p 0 = 0 := by
  induction n generalizing p with
  | zero => rfl
  | succ n ih =>
      cases p with
      | zero => rfl
      | succ p => simpa [List.replicate_succ, List.getD] using ih p

/-- The fold of index_code never writes a procedure slot whose Start opcode
does not occur in the scanned pairs. -/
theorem indexCode_foldl_aux (p : Nat) :
    ∀ (l : List (Nat × Opcode)) (acc : List Nat),
      (∀ x ∈ l, x.2 ≠ Opcode.start p) → acc.getD p 0 = 0 →
      (l.foldl (fun procs oi =>
        match oi.2 with
        | Opcode.start q => procs.set q oi.1
        | _ => procs) acc).getD p 0 = 0 := by
  intro l
  induction l with
  | nil => intro acc _ h0; simpa using h0
  | cons x xs ih =>
      intro acc h h0
      simp only [List.foldl_cons]
      refine ih _ (fun y hy => h y (List.mem_cons_of_mem _ hy)) ?_
      rcases x with ⟨i, op⟩
      have hop : op ≠ Opcode.start p := h (i, op) (List.mem_cons_self _ _)
      cases op <;> simp only [] <;> try exact h0
      case start q =>
        have hq : q ≠ p := fun he => hop (by rw [he])
        rw [getD_set_ne _ q p _ _ hq]
        exact h0

/-- index_code leaves proc_start[p] = 0 when the program holds no Start(p)
opcode. -/
theorem indexCode_of_not_mem (ops : List Opcode) (p : Nat)
    (h : Opcode.start p ∉ ops) : (indexCode ops).getD p 0 = 0 := by
  refine indexCode_foldl_aux p ops.enum (List.replicate 128 0) ?_
    (getD_replicate_zero 128 p)
  intro x hx hx2
  apply h
  have hx3 : ops[x.1]? = some x.2 := List.mem_enum_iff_getElem?.mp hx
  rw [hx2] at hx3
  exact List.getElem?_mem hx3

/-- Padding with Noop introduces no Start opcode. -/
theorem start_not_mem_padProgram (ops : List Opcode) (p : Nat)
    (h : Opcode.start p ∉ ops) : Opcode.start p ∉ padProgram ops := by
  intro hmem
  rcases List.mem_append.mp hmem with hm | hm
  · exact h hm
  · have := List.eq_of_mem_replicate hm
    exact Opcode.noConfusion this

/-- C10.  For every procedure index p below MAX_PROCEDURES = 128 whose
Start(p) opcode does not occur in the loaded program: the load-time index
leaves proc_start[p] = 0; whenever the opcode at offset 0 of the padded
store is not Start(p), Executor::execute(p) fails its entry assert_eq and
panics instead of returning or rejecting; hence processing a
RemoteProcedureCall(p) event, or a button event bound to Action::Proc(p),
panics. -/
theorem c10_unbound_procedure_panics (ops : List Opcode) (p : Nat) (vm : Vm)
    (bo : BoardOracle) (fuel : Nat) (hp : p < 128)
    (hnostart : Opcode.start p ∉ ops)
    (hop : vm.opcodes = padProgram ops)
    (hpr : vm.procedures = indexCode vm.opcodes) :
    vm.procedures.getD p 0 = 0 ∧
    (vm.opcodes.getD 0 .noop ≠ .start p →
      execute bo vm p fuel = .panicked ∧
      parseEvent bo vm fuel (.remoteProcedureCall p) = .panicked) ∧
    (∀ i trg b, bindingFilter vm.bindings i vm.layers.current trg = some b →
      b.action = .proc p →
      ¬ (trg = .deactivated ∧ (vm.layers.maybeDeactivate i).2 = true) →
      vm.opcodes.getD 0 .noop ≠ .start p →
      parseEvent bo vm fuel (.buttonEvent i trg) = .panicked) := by
  have hidx : vm.procedures.getD p 0 = 0 := by
    rw [hpr, hop]
    exact indexCode_of_not_mem _ p (start_not_mem_padProgram ops p hnostart)
  have hlen : 0 < vm.opcodes.length := by
    rw [hop]
    simp only [padProgram, List.length_append, List.length_replicate]
    omega
  have hexec : vm.opcodes.getD 0 .noop ≠ .start p →
      execute bo vm p fuel = .panicked := by
    intro h0
    simp only [execute]
    rw [if_neg (show ¬ (128 ≤ p) by omega), hidx,
      if_neg (show ¬ (vm.opcodes.length ≤ 0) by omega), if_pos h0]
  refine ⟨hidx, fun h0 => ⟨hexec h0, ?_⟩, ?_⟩
  · simp only [parseEvent]
    exact hexec h0
  · intro i trg b hb hbp hnc h0
    simp only [parseEvent]
    rw [if_neg hnc, hb]
    simp only [dispatchBinding, hbp]
    rw [hexec h0]

set_option maxRecDepth 4000 in
/-- C10 witness: with the loaded two-opcode program (procedure 0 only),
procedure index 5 is unbound, its proc_start slot is 0, and executing it
panics on the entry assertion. -/
theorem c10_unbound_procedure_panics_witness :
    vmLoadedExample.procedures.getD 5 0 = 0 ∧
    execute boardOracleNone vmLoadedExample 5 10 = .panicked ∧
    parseEvent boardOracleNone vmLoadedExample 10 (.remoteProcedureCall 5) =
      .panicked := by
  have h := c10_unbound_procedure_panics opsExample 5 vmLoadedExample
    boardOracleNone 10 (by omega) (by decide) rfl rfl
  have h2 := h.2.1 (by decide)
  exact ⟨h.1, h2.1, h2.2⟩
